import Mathlib

/-!
Shallow embedding of the core of the Iot-Remote-Lab-Server repository
(Rust): the PlatformIO toolchain runner (`src/service/platformio_service.rs`),
the device registry service (`src/service/device_service.rs`), the in-memory
device repository (`src/adapters/in_memory_device_repo.rs`) and the `Device`
entity (`src/domain/device.rs`).

The external environment (the `platformio` binary, the OS process layer and
the filesystem) is modelled by a `World` record of oracles, and the
observable effects (directories created, files written, toolchain
invocations attempted) by an explicit state `St` threaded through every
operation.  Subprocess output streams are modelled as `String`
(`String.from_utf8_lossy` in the source turns the captured bytes into
strings before any of them is inspected).
-/

/-- Outcome of running `platformio --version` (`check_pio_installed`):
either the process could not be started (`tokio::process` returned `Err`),
or it ran and exited with the given success flag. -/
inductive ProbeOutcome where
  | spawnFailed (msg : String)
  | exited (success : Bool)
deriving DecidableEq, Repr

/-- Outcome of running `platformio <args>` in a working directory:
either the process could not be started, or it completed with an exit
status (`exitZero`) and captured stdout/stderr. -/
inductive RunOutcome where
  | spawnFailed (msg : String)
  | completed (exitZero : Bool) (stdout stderr : String)
deriving DecidableEq, Repr

/-- The external environment: what the `platformio --version` probe does,
what each `platformio` command invocation does (keyed by working directory
and argument list), and whether each filesystem operation
(`tokio::fs::create_dir_all`, `tokio::fs::write`) succeeds; `osMsg` is the
OS error text attached to a failing filesystem call on a path. -/
structure World where
  probe : ProbeOutcome
  run : String → List String → RunOutcome
  mkdirOk : String → Bool
  writeOk : String → Bool
  osMsg : String → String

/-- Observable state: the set of directories that exist, the files on disk
(path, content — later writes shadow earlier ones), and the trace of
toolchain command invocations that were attempted (working directory and
argument list of each `cmd.output()` call in `run_pio_command`). -/
structure St where
  dirs : List String
  files : List (String × String)
  invoked : List (String × List String)
deriving DecidableEq, Repr

/-- The empty initial state: no directories, no files, no invocations. -/
def St.empty : St := ⟨[], [], []⟩

/-- Error taxonomy of the toolchain runner, one constructor per `anyhow!`
site in `platformio_service.rs`.  `toolchainNotFound` and
`toolchainCheckFailed` are the two `ToolchainUnavailable` shapes
(probe could not be started / probe exited non-zero), `execFailed` is a
command that could not be started, `commandFailed` a command that exited
non-zero (carrying its captured stdout and stderr), `fsError` a failed
directory creation or file write. -/
inductive PioError where
  | toolchainNotFound (msg : String)
  | toolchainCheckFailed
  | execFailed (msg : String)
  | commandFailed (stdout stderr : String)
  | fsError (msg : String)
deriving DecidableEq, Repr

/-- The message string each error renders to, exactly as the `anyhow!`
format strings in `platformio_service.rs` build it. -/
def PioError.rendered : PioError → String
  | .toolchainNotFound e => "PlatformIO not found. Please install PlatformIO: " ++ e
  | .toolchainCheckFailed => "PlatformIO installation check failed"
  | .execFailed e => "Failed to execute platformio command: " ++ e
  | .commandFailed out err => "PlatformIO command failed: " ++ out ++ "\n" ++ err
  | .fsError m => m

/-- `ToolchainUnavailable` classification: the errors produced by
`check_pio_installed`. -/
def PioError.isToolchainUnavailable : PioError → Bool
  | .toolchainNotFound _ => true
  | .toolchainCheckFailed => true
  | _ => false

/-- `check_pio_installed`: run `platformio --version`; error if the probe
could not be started or exited non-zero (source lines 121-136). -/
def check_pio_installed (w : World) : Except PioError Unit :=
  match w.probe with
  | .spawnFailed e => .error (.toolchainNotFound e)
  | .exited true => .ok ()
  | .exited false => .error .toolchainCheckFailed

/-- All (path, parents-included) directory names `create_dir_all path`
ensures: every `/`-separated prefix of the path. -/
def parentChain (path : String) : List String :=
  let parts := path.splitOn "/"
  (List.range parts.length).map (fun i => String.intercalate "/" (parts.take (i + 1)))

/-- Add a directory name to the set of existing directories (no-op when it
already exists, as `create_dir_all` is idempotent). -/
def addDir (dirs : List String) (d : String) : List String :=
  if d ∈ dirs then dirs else dirs ++ [d]

/-- `tokio::fs::create_dir_all`: create the directory and any missing
parents, or fail with the OS error text; no state change on failure. -/
def create_dir_all (w : World) (path : String) (s : St) : Except String St :=
  if w.mkdirOk path then
    .ok { s with dirs := (parentChain path).foldl addDir s.dirs }
  else .error (w.osMsg path)

/-- Drop every binding of `path` from the file map. -/
def eraseKey (files : List (String × String)) (path : String) :
    List (String × String) :=
  match files with
  | [] => []
  | (p, c) :: t =>
    if p = path then eraseKey t path else (p, c) :: eraseKey t path

/-- Record a file write: the new (path, content) pair shadows any earlier
entry for the same path. -/
def setFile (files : List (String × String)) (path content : String) :
    List (String × String) :=
  (path, content) :: eraseKey files path

/-- Look up the current content of a file. -/
def getFile (files : List (String × String)) (path : String) : Option String :=
  match files with
  | [] => none
  | (p, c) :: t => if p = path then some c else getFile t path

/-- `tokio::fs::write`: overwrite the file at `path` with `content`, or
fail with the OS error text; no state change on failure. -/
def writeFile (w : World) (path content : String) (s : St) : Except String St :=
  if w.writeOk path then .ok { s with files := setFile s.files path content }
  else .error (w.osMsg path)

/-- `run_pio_command` (source lines 94-118): first `check_pio_installed`;
then run `platformio <args>` with the working directory set to
`project_path` (the attempt is recorded in the invocation trace); a
completed process is judged solely by its exit status: zero gives
`Ok(format!("{}{}", stdout, stderr))`, non-zero gives the
`commandFailed` error carrying both streams. -/
def run_pio_command (w : World) (project_path : String) (args : List String)
    (s : St) : Except PioError String × St :=
  match check_pio_installed w with
  | .error e => (.error e, s)
  | .ok _ =>
    let s1 : St := { s with invoked := s.invoked ++ [(project_path, args)] }
    match w.run project_path args with
    | .spawnFailed e => (.error (.execFailed e), s1)
    | .completed z out err =>
      if z then (.ok (out ++ err), s1)
      else (.error (.commandFailed out err), s1)

/-- `build_project`: `platformio run` in the project directory. -/
def build_project (w : World) (project_path : String) (s : St) :
    Except PioError String × St :=
  run_pio_command w project_path ["run"] s

/-- `upload_firmware`: `platformio run --target upload`, with
`--upload-port p` appended when a port is supplied. -/
def upload_firmware (w : World) (project_path : String) (port : Option String)
    (s : St) : Except PioError String × St :=
  let args := ["run", "--target", "upload"] ++
    (match port with
     | some p => ["--upload-port", p]
     | none => [])
  run_pio_command w project_path args s

/-- `clean_project`: `platformio run --target clean`. -/
def clean_project (w : World) (project_path : String) (s : St) :
    Except PioError String × St :=
  run_pio_command w project_path ["run", "--target", "clean"] s

/-- `get_project_info`: `platformio project config`. -/
def get_project_info (w : World) (project_path : String) (s : St) :
    Except PioError String × St :=
  run_pio_command w project_path ["project", "config"] s

/-- `init_project` (source lines 47-55): first
`create_dir_all(project_path)` (mapping a failure to the
"Failed to create project directory" error), then
`platformio project init --board <board>`. -/
def init_project (w : World) (project_path board : String) (s : St) :
    Except PioError String × St :=
  match create_dir_all w project_path s with
  | .error e => (.error (.fsError ("Failed to create project directory: " ++ e)), s)
  | .ok s1 => run_pio_command w project_path ["project", "init", "--board", board] s1

/-- The fixed `main.cpp` template written by `create_basic_main`
(the raw string literal at source lines 67-85). -/
def main_cpp_content : String :=
  "#include <Arduino.h>\n\n// Basic ESP32 program\nvoid setup() \x7b\n    Serial.begin(115200);\n    pinMode(LED_BUILTIN, OUTPUT);\n    Serial.println(\"ESP32 Remote Lab Device Started\");\n\x7d\n\nvoid loop() \x7b\n    digitalWrite(LED_BUILTIN, HIGH);\n    Serial.println(\"LED ON\");\n    delay(1000);\n    digitalWrite(LED_BUILTIN, LOW);\n    Serial.println(\"LED OFF\");\n    delay(1000);\n\x7d\n"

/-- `create_basic_main` (source lines 59-90): ensure
`<project_path>/src` exists, then write the fixed template to
`<project_path>/src/main.cpp`; no toolchain interaction at all. -/
def create_basic_main (w : World) (project_path : String) (s : St) :
    Except PioError Unit × St :=
  let src_dir := project_path ++ "/src"
  match create_dir_all w src_dir s with
  | .error e => (.error (.fsError ("Failed to create src directory: " ++ e)), s)
  | .ok s1 =>
    match writeFile w (src_dir ++ "/main.cpp") main_cpp_content s1 with
    | .error e => (.error (.fsError ("Failed to write main.cpp: " ++ e)), s1)
    | .ok s2 => (.ok (), s2)

/-- `Device` (src/domain/device.rs): `Uuid` is modelled as `Nat`; the two
optional fields are the toolchain configuration. -/
structure Device where
  id : Nat
  name : String
  board_id : String
  board_type : Option String
  project_path : Option String
deriving DecidableEq, Repr

/-- `Device::new`: fresh id (the model takes the value `Uuid::new_v4()`
produced as an argument), empty `board_id`, no toolchain configuration. -/
def Device.new (freshId : Nat) (name : String) : Device :=
  ⟨freshId, name, "", none, none⟩

/-- `Device::with_esp32_config`: fresh id plus the supplied board id,
board type and project path. -/
def Device.with_esp32_config (freshId : Nat)
    (name board_id board_type project_path : String) : Device :=
  ⟨freshId, name, board_id, some board_type, some project_path⟩

/-- The in-memory store: the `HashMap<Uuid, Device>` behind the `RwLock`,
modelled as an association list whose keys are unique by construction
(`insertStore` removes the old binding). -/
abbrev Store := List (Nat × Device)

/-- `HashMap::insert`: bind `k` to `v`, replacing any previous binding. -/
def insertStore (store : Store) (k : Nat) (v : Device) : Store :=
  (k, v) :: store.filter (fun q => decide (q.1 ≠ k))

/-- `HashMap::get(&id).cloned()`: the current binding of `id`, if any. -/
def findStore (store : Store) (id : Nat) : Option Device :=
  match store with
  | [] => none
  | (k, v) :: t => if k = id then some v else findStore t id

/-- `InMemoryDeviceRepository::create`: insert keyed by `device.id`,
return the device (the in-memory implementation never fails). -/
def InMemoryRepo.create (store : Store) (device : Device) : Store × Device :=
  (insertStore store device.id device, device)

/-- `InMemoryDeviceRepository::find_by_id`. -/
def InMemoryRepo.find_by_id (store : Store) (id : Nat) : Option Device :=
  findStore store id

/-- `InMemoryDeviceRepository::list`: all stored devices (iteration order
of the map is unspecified; the model returns insertion-structured order,
and every claim about `list` is stated order-independently). -/
def InMemoryRepo.list (store : Store) : List Device :=
  store.map Prod.snd

/-- `DeviceService::create` (src/service/device_service.rs lines 20-38):
when both `board_type` and `project_path` are supplied the device is built
by `Device::with_esp32_config`, otherwise by `Device::new`; the device is
then stored and returned. -/
def DeviceService.create (store : Store) (freshId : Nat) (name board_id : String)
    (board_type project_path : Option String) : Store × Device :=
  let device :=
    match board_type, project_path with
    | some board, some path => Device.with_esp32_config freshId name board_id board path
    | _, _ => Device.new freshId name
  InMemoryRepo.create store device

/-- `DeviceService::get`: pass-through to `find_by_id`. -/
def DeviceService.get (store : Store) (id : Nat) : Option Device :=
  InMemoryRepo.find_by_id store id

/-- `DeviceService::list`: pass-through to `list`. -/
def DeviceService.list (store : Store) : List Device :=
  InMemoryRepo.list store

/-- One `DeviceService::create` request: the fresh id `Uuid::new_v4()`
will produce, plus the four arguments. -/
structure CreateReq where
  freshId : Nat
  name : String
  board_id : String
  board_type : Option String
  project_path : Option String
deriving DecidableEq, Repr

/-- The device a single request constructs (the branch inside
`DeviceService::create`). -/
def mkDevice (r : CreateReq) : Device :=
  match r.board_type, r.project_path with
  | some board, some path =>
      Device.with_esp32_config r.freshId r.name r.board_id board path
  | _, _ => Device.new r.freshId r.name

/-- Run a sequence of `DeviceService::create` calls left to right,
returning the final store and the list of returned devices. -/
def createAll (store : Store) : List CreateReq → Store × List Device
  | [] => (store, [])
  | r :: rs =>
    let p := DeviceService.create store r.freshId r.name r.board_id
        r.board_type r.project_path
    let q := createAll p.1 rs
    (q.1, p.2 :: q.2)

/-! ## Helper lemmas (shared) -/

/-- `DeviceService.create` returns exactly the device `mkDevice` builds
from the request. -/
theorem create_req_snd (store : Store) (r : CreateReq) :
    (DeviceService.create store r.freshId r.name r.board_id
      r.board_type r.project_path).2 = mkDevice r := by
  cases r with
  | mk f n b bt pp => cases bt <;> cases pp <;> rfl

/-- `DeviceService.create` stores the built device keyed by the fresh id. -/
theorem create_req_fst (store : Store) (r : CreateReq) :
    (DeviceService.create store r.freshId r.name r.board_id
      r.board_type r.project_path).1 =
      insertStore store r.freshId (mkDevice r) := by
  cases r with
  | mk f n b bt pp => cases bt <;> cases pp <;> rfl

/-- The id of the device built from a request is the request's fresh id. -/
theorem mkDevice_id (r : CreateReq) : (mkDevice r).id = r.freshId := by
  cases r with
  | mk f n b bt pp => cases bt <;> cases pp <;> rfl

/-- Inserting under a key absent from the store is a plain cons. -/
theorem insertStore_not_mem (store : Store) (k : Nat) (v : Device)
    (h : k ∉ store.map Prod.fst) :
    insertStore store k v = (k, v) :: store := by
  unfold insertStore
  congr 1
  rw [List.filter_eq_self]
  intro q hq
  simp only [decide_eq_true_eq]
  intro hqk
  exact h (hqk ▸ List.mem_map_of_mem Prod.fst hq)

/-- `findStore` after inserting `k` finds the new binding at `k`. -/
theorem findStore_insert_self (store : Store) (k : Nat) (v : Device) :
    findStore (insertStore store k v) k = some v := by
  simp [insertStore, findStore]

/-! ## Claim theorems: device registry -/

/-- C3: `DeviceService.create` with both `board_type` and `project_path`
supplied returns a device carrying those values and the supplied
`board_id`; with either (or both) absent it returns a device with both
optional fields absent; hence `board_type` and `project_path` are both
present or both absent, never exactly one. -/
theorem claim_c3 (store : Store) (freshId : Nat) (name bid : String)
    (bt pp : Option String) :
    (∀ b p, bt = some b → pp = some p →
      (DeviceService.create store freshId name bid bt pp).2.board_type = some b ∧
      (DeviceService.create store freshId name bid bt pp).2.project_path = some p ∧
      (DeviceService.create store freshId name bid bt pp).2.board_id = bid) ∧
    ((bt = none ∨ pp = none) →
      (DeviceService.create store freshId name bid bt pp).2.board_type = none ∧
      (DeviceService.create store freshId name bid bt pp).2.project_path = none) ∧
    ((DeviceService.create store freshId name bid bt pp).2.board_type = none ↔
      (DeviceService.create store freshId name bid bt pp).2.project_path = none) := by
  cases bt <;> cases pp <;>
    simp [DeviceService.create, InMemoryRepo.create, Device.new,
      Device.with_esp32_config]

/-- Witness for C3 at concrete inputs: both-supplied and one-supplied. -/
theorem claim_c3_witness :
    ((DeviceService.create [] 0 "dev" "b1" (some "esp32dev") none).2.board_type = none ∧
     (DeviceService.create [] 0 "dev" "b1" (some "esp32dev") none).2.project_path = none) ∧
    ((DeviceService.create [] 0 "dev" "b1" (some "esp32dev") (some "/p")).2.board_type = some "esp32dev" ∧
     (DeviceService.create [] 0 "dev" "b1" (some "esp32dev") (some "/p")).2.project_path = some "/p" ∧
     (DeviceService.create [] 0 "dev" "b1" (some "esp32dev") (some "/p")).2.board_id = "b1") :=
  ⟨(claim_c3 [] 0 "dev" "b1" (some "esp32dev") none).2.1 (Or.inr rfl),
   (claim_c3 [] 0 "dev" "b1" (some "esp32dev") (some "/p")).1 "esp32dev" "/p" rfl rfl⟩

/-- C9: whenever `board_type` or `project_path` is absent, the created
device's `board_id` is the empty string — the supplied `board_id` is
discarded (`Device::new` is used, which sets `board_id` to `String::new()`). -/
theorem claim_c9 (store : Store) (freshId : Nat) (name bid : String)
    (bt pp : Option String) (h : bt = none ∨ pp = none) :
    (DeviceService.create store freshId name bid bt pp).2.board_id = "" := by
  rcases h with h | h
  · subst h
    cases pp <;> simp [DeviceService.create, InMemoryRepo.create, Device.new]
  · subst h
    cases bt <;> simp [DeviceService.create, InMemoryRepo.create, Device.new]

/-- Witness for C9: a non-empty `board_id` argument is discarded when
`board_type` is absent. -/
theorem claim_c9_witness :
    (DeviceService.create [] 5 "dev" "supplied-board" none (some "/p")).2.board_id = "" :=
  claim_c9 [] 5 "dev" "supplied-board" none (some "/p") (Or.inl rfl)

/-- C5: over any store state, `get` on the id of a device just returned by
`create` (run against the store `create` produced) returns that device. -/
theorem claim_c5 (store : Store) (freshId : Nat) (name bid : String)
    (bt pp : Option String) :
    DeviceService.get (DeviceService.create store freshId name bid bt pp).1
      (DeviceService.create store freshId name bid bt pp).2.id =
      some (DeviceService.create store freshId name bid bt pp).2 := by
  cases bt <;> cases pp <;>
    simp [DeviceService.create, DeviceService.get, InMemoryRepo.create,
      InMemoryRepo.find_by_id, Device.new, Device.with_esp32_config,
      findStore_insert_self]

/-- The devices returned by a sequence of creates are exactly the devices
built from the requests, in order. -/
theorem createAll_devices (store : Store) (reqs : List CreateReq) :
    (createAll store reqs).2 = reqs.map mkDevice := by
  induction reqs generalizing store with
  | nil => rfl
  | cons r rs ih =>
    simp [createAll, create_req_snd, ih]

/-- With pairwise-fresh ids (none of them already a key of the store and
no id repeated), running the creates stacks the new records on top of the
store, newest first. -/
theorem createAll_store (store : Store) (reqs : List CreateReq)
    (hnodup : (reqs.map CreateReq.freshId).Nodup)
    (hdisj : ∀ k ∈ reqs.map CreateReq.freshId, k ∉ store.map Prod.fst) :
    (createAll store reqs).1 =
      ((reqs.map mkDevice).map (fun d => (d.id, d))).reverse ++ store := by
  induction reqs generalizing store with
  | nil => simp [createAll]
  | cons r rs ih =>
    simp only [List.map_cons, List.nodup_cons] at hnodup
    have hhead : r.freshId ∉ store.map Prod.fst := by
      apply hdisj
      simp
    have hstep :
        (DeviceService.create store r.freshId r.name r.board_id
          r.board_type r.project_path).1 = (r.freshId, mkDevice r) :: store := by
      rw [create_req_fst, insertStore_not_mem store r.freshId (mkDevice r) hhead]
    have hdisj2 : ∀ k ∈ rs.map CreateReq.freshId,
        k ∉ ((r.freshId, mkDevice r) :: store).map Prod.fst := by
      intro k hk
      simp only [List.map_cons, List.mem_cons, not_or]
      constructor
      · intro hc
        exact hnodup.1 (hc ▸ hk)
      · exact hdisj k (List.mem_cons_of_mem _ hk)
    simp only [createAll, hstep]
    rw [ih ((r.freshId, mkDevice r) :: store) hnodup.2 hdisj2]
    simp [mkDevice_id]

/-- C6: starting from the empty store, after N creates with
pairwise-distinct ids, `list` returns exactly N records, and a device is
among them exactly when it is among the N created devices. -/
theorem claim_c6 (reqs : List CreateReq)
    (h : (reqs.map CreateReq.freshId).Nodup) :
    (DeviceService.list (createAll [] reqs).1).length = reqs.length ∧
    ∀ d : Device,
      d ∈ DeviceService.list (createAll [] reqs).1 ↔ d ∈ (createAll [] reqs).2 := by
  have hstore := createAll_store [] reqs h (by simp)
  have hdev := createAll_devices [] reqs
  constructor
  · rw [DeviceService.list, InMemoryRepo.list, hstore]
    simp
  · intro d
    rw [DeviceService.list, InMemoryRepo.list, hstore, hdev]
    simp

/-- Witness for C6 at two concrete distinct-id requests. -/
theorem claim_c6_witness :
    (DeviceService.list
      (createAll [] [⟨1, "a", "", none, none⟩,
        ⟨2, "b", "x", some "esp32dev", some "/p"⟩]).1).length = 2 ∧
    ∀ d : Device,
      d ∈ DeviceService.list
        (createAll [] [⟨1, "a", "", none, none⟩,
          ⟨2, "b", "x", some "esp32dev", some "/p"⟩]).1 ↔
      d ∈ (createAll [] [⟨1, "a", "", none, none⟩,
          ⟨2, "b", "x", some "esp32dev", some "/p"⟩]).2 :=
  claim_c6 [⟨1, "a", "", none, none⟩, ⟨2, "b", "x", some "esp32dev", some "/p"⟩]
    (by decide)

/-! ## Concrete worlds for witnesses and counterexamples -/

/-- A world where the toolchain is installed and every command completes
with exit status zero, stdout "o", stderr "e". -/
def wOk : World :=
  { probe := .exited true,
    run := fun _ _ => .completed true "o" "e",
    mkdirOk := fun _ => true,
    writeOk := fun _ => true,
    osMsg := fun _ => "os error" }

/-- A world where the toolchain is installed but every command completes
with a non-zero exit status, stdout "out", stderr "err". -/
def wCmdFail : World :=
  { probe := .exited true,
    run := fun _ _ => .completed false "out" "err",
    mkdirOk := fun _ => true,
    writeOk := fun _ => true,
    osMsg := fun _ => "os error" }

/-- A world where the `platformio` binary is absent (the version probe
cannot be started) while the filesystem works. -/
def wNoPio : World :=
  { probe := .spawnFailed "No such file or directory (os error 2)",
    run := fun _ _ => .spawnFailed "No such file or directory (os error 2)",
    mkdirOk := fun _ => true,
    writeOk := fun _ => true,
    osMsg := fun _ => "os error" }

/-! ## Claim theorems: toolchain runner -/

/-- C4: for a toolchain invocation whose subprocess was started and
completed, the operation succeeds exactly when the exit status is zero
(whatever the streams contain), and on success the returned value is the
captured stdout followed by the captured stderr. -/
theorem claim_c4 (w : World) (path : String) (args : List String) (s : St)
    (z : Bool) (out err : String)
    (hprobe : check_pio_installed w = .ok ())
    (hrun : w.run path args = .completed z out err) :
    ((∃ v, (run_pio_command w path args s).1 = .ok v) ↔ z = true) ∧
    (z = true → (run_pio_command w path args s).1 = .ok (out ++ err)) := by
  cases z <;> simp [run_pio_command, hprobe, hrun]

/-- Witness for C4: a zero-exit process with stdout "o", stderr "e"
succeeds with output "oe". -/
theorem claim_c4_witness :
    ((∃ v, (run_pio_command wOk "/p" ["run"] St.empty).1 = .ok v) ↔ true = true) ∧
    (true = true → (run_pio_command wOk "/p" ["run"] St.empty).1 = .ok ("o" ++ "e")) :=
  claim_c4 wOk "/p" ["run"] St.empty true "o" "e" rfl rfl

/-- C2 counterexample: a command that exits non-zero with stdout "out"
and stderr "err" yields a `commandFailed` error whose carried output
string is NOT the plain concatenation "outerr": the code prepends
"PlatformIO command failed: " and inserts a newline between the streams. -/
theorem claim_c2_counterexample :
    (build_project wCmdFail "/proj" St.empty).1 =
      .error (.commandFailed "out" "err") ∧
    (PioError.commandFailed "out" "err").rendered ≠ "out" ++ "err" ∧
    (PioError.commandFailed "out" "err").rendered =
      "PlatformIO command failed: out\nerr" := by
  refine ⟨rfl, by decide, rfl⟩

/-- C2 amended: a toolchain command that exits non-zero fails with
`commandFailed` carrying the captured stdout and stderr, and the error's
message string is "PlatformIO command failed: " followed by stdout, a
newline, then stderr (not the bare concatenation). -/
theorem claim_c2_amended (w : World) (path board : String)
    (port : Option String) (out err : String) (s : St)
    (hprobe : check_pio_installed w = .ok ())
    (hmkdir : w.mkdirOk path = true)
    (hrun : ∀ cwd args, w.run cwd args = .completed false out err) :
    (build_project w path s).1 = .error (.commandFailed out err) ∧
    (upload_firmware w path port s).1 = .error (.commandFailed out err) ∧
    (clean_project w path s).1 = .error (.commandFailed out err) ∧
    (get_project_info w path s).1 = .error (.commandFailed out err) ∧
    (init_project w path board s).1 = .error (.commandFailed out err) ∧
    (PioError.commandFailed out err).rendered =
      "PlatformIO command failed: " ++ out ++ "\n" ++ err := by
  refine ⟨?_, ?_, ?_, ?_, ?_, rfl⟩ <;>
    simp [build_project, upload_firmware, clean_project, get_project_info,
      init_project, create_dir_all, hmkdir, run_pio_command, hprobe, hrun]

/-- Witness for the amended C2 at a concrete failing world. -/
theorem claim_c2_amended_witness :
    (build_project wCmdFail "/p" St.empty).1 = .error (.commandFailed "out" "err") ∧
    (upload_firmware wCmdFail "/p" none St.empty).1 = .error (.commandFailed "out" "err") ∧
    (clean_project wCmdFail "/p" St.empty).1 = .error (.commandFailed "out" "err") ∧
    (get_project_info wCmdFail "/p" St.empty).1 = .error (.commandFailed "out" "err") ∧
    (init_project wCmdFail "/p" "esp32dev" St.empty).1 = .error (.commandFailed "out" "err") ∧
    (PioError.commandFailed "out" "err").rendered =
      "PlatformIO command failed: " ++ "out" ++ "\n" ++ "err" :=
  claim_c2_amended wCmdFail "/p" "esp32dev" none "out" "err" St.empty rfl rfl
    (fun _ _ => rfl)

/-- Every error `check_pio_installed` produces is of the
`ToolchainUnavailable` class. -/
theorem check_error_unavailable (w : World) (e : PioError)
    (h : check_pio_installed w = .error e) :
    e.isToolchainUnavailable = true := by
  unfold check_pio_installed at h
  cases hp : w.probe with
  | spawnFailed msg =>
    rw [hp] at h
    simp only [Except.error.injEq] at h
    subst h
    rfl
  | exited b =>
    rw [hp] at h
    cases b
    · simp only [Except.error.injEq] at h
      subst h
      rfl
    · simp at h

/-- After a write, reading the written path gives the written content. -/
theorem getFile_setFile_self (files : List (String × String))
    (path content : String) :
    getFile (setFile files path content) path = some content := by
  simp [setFile, getFile]

/-- C1 counterexample: with the toolchain binary absent (and the
filesystem healthy), `create_basic_main` does not fail with a
`ToolchainUnavailable` error — it never probes the toolchain — and it
mutates the filesystem: it succeeds and writes `<path>/src/main.cpp`. -/
theorem claim_c1_counterexample :
    check_pio_installed wNoPio =
      .error (.toolchainNotFound "No such file or directory (os error 2)") ∧
    (create_basic_main wNoPio "/proj" St.empty).1 = .ok () ∧
    (create_basic_main wNoPio "/proj" St.empty).2.files =
      [("/proj/src/main.cpp", main_cpp_content)] ∧
    (create_basic_main wNoPio "/proj" St.empty).2.files ≠ St.empty.files := by
  refine ⟨rfl, rfl, rfl, by decide⟩

/-- C1 amended: when the toolchain probe fails, `build_project`,
`upload_firmware`, `clean_project` and `get_project_info` fail with the
`ToolchainUnavailable`-class error and leave the state untouched; but
`init_project` creates the project directory BEFORE the probe runs (so
the directory mutation survives the failure), and `create_basic_main`
performs no probe at all: it succeeds and writes the template file
whenever the filesystem operations succeed. -/
theorem claim_c1_amended (w : World) (path board : String)
    (port : Option String) (s : St) (e : PioError)
    (hcheck : check_pio_installed w = .error e) :
    e.isToolchainUnavailable = true ∧
    build_project w path s = (.error e, s) ∧
    upload_firmware w path port s = (.error e, s) ∧
    clean_project w path s = (.error e, s) ∧
    get_project_info w path s = (.error e, s) ∧
    (w.mkdirOk path = true →
      init_project w path board s =
        (.error e, { s with dirs := (parentChain path).foldl addDir s.dirs })) ∧
    (w.mkdirOk (path ++ "/src") = true →
      w.writeOk (path ++ "/src" ++ "/main.cpp") = true →
      (create_basic_main w path s).1 = .ok () ∧
      getFile (create_basic_main w path s).2.files (path ++ "/src" ++ "/main.cpp") =
        some main_cpp_content) := by
  refine ⟨check_error_unavailable w e hcheck, ?_, ?_, ?_, ?_, ?_, ?_⟩
  · simp [build_project, run_pio_command, hcheck]
  · simp [upload_firmware, run_pio_command, hcheck]
  · simp [clean_project, run_pio_command, hcheck]
  · simp [get_project_info, run_pio_command, hcheck]
  · intro hmk
    simp [init_project, create_dir_all, hmk, run_pio_command, hcheck]
  · intro hmk hwr
    simp [create_basic_main, create_dir_all, hmk, writeFile, hwr,
      getFile_setFile_self]

/-- Witness for the amended C1 at the concrete no-toolchain world. -/
theorem claim_c1_amended_witness :
    (PioError.toolchainNotFound "No such file or directory (os error 2)").isToolchainUnavailable = true ∧
    build_project wNoPio "/p" St.empty =
      (.error (.toolchainNotFound "No such file or directory (os error 2)"), St.empty) ∧
    upload_firmware wNoPio "/p" none St.empty =
      (.error (.toolchainNotFound "No such file or directory (os error 2)"), St.empty) ∧
    clean_project wNoPio "/p" St.empty =
      (.error (.toolchainNotFound "No such file or directory (os error 2)"), St.empty) ∧
    get_project_info wNoPio "/p" St.empty =
      (.error (.toolchainNotFound "No such file or directory (os error 2)"), St.empty) ∧
    (wNoPio.mkdirOk "/p" = true →
      init_project wNoPio "/p" "esp32dev" St.empty =
        (.error (.toolchainNotFound "No such file or directory (os error 2)"),
         { St.empty with dirs := (parentChain "/p").foldl addDir St.empty.dirs })) ∧
    (wNoPio.mkdirOk ("/p" ++ "/src") = true →
      wNoPio.writeOk ("/p" ++ "/src" ++ "/main.cpp") = true →
      (create_basic_main wNoPio "/p" St.empty).1 = .ok () ∧
      getFile (create_basic_main wNoPio "/p" St.empty).2.files ("/p" ++ "/src" ++ "/main.cpp") =
        some main_cpp_content) :=
  claim_c1_amended wNoPio "/p" "esp32dev" none St.empty
    (.toolchainNotFound "No such file or directory (os error 2)") rfl

/-- C7: `init_project` first runs the directory creation: on success it
proceeds to invoke the toolchain command from the state in which the
project directory (and its parents) exist; if directory creation fails,
the operation fails with the filesystem error and the state — in
particular the toolchain-invocation trace — is exactly the input state, so
the toolchain is never invoked. -/
theorem claim_c7 (w : World) (path board : String) (s : St) :
    (w.mkdirOk path = true →
      init_project w path board s =
        run_pio_command w path ["project", "init", "--board", board]
          { s with dirs := (parentChain path).foldl addDir s.dirs }) ∧
    (w.mkdirOk path = false →
      init_project w path board s =
        (.error (.fsError ("Failed to create project directory: " ++ w.osMsg path)), s) ∧
      (init_project w path board s).2.invoked = s.invoked) := by
  constructor
  · intro h
    simp [init_project, create_dir_all, h]
  · intro h
    simp [init_project, create_dir_all, h]

/-- Witness for C7: in the healthy world the directory is created first
and the toolchain command then runs from the mutated state. -/
theorem claim_c7_witness :
    init_project wOk "/p" "esp32dev" St.empty =
      run_pio_command wOk "/p" ["project", "init", "--board", "esp32dev"]
        { St.empty with dirs := (parentChain "/p").foldl addDir St.empty.dirs } :=
  (claim_c7 wOk "/p" "esp32dev" St.empty).1 rfl

/-- Dropping the bindings of one path does not change lookups of another. -/
theorem getFile_eraseKey_ne (files : List (String × String)) (p q : String)
    (h : q ≠ p) :
    getFile (eraseKey files p) q = getFile files q := by
  induction files with
  | nil => rfl
  | cons a t ih =>
    obtain ⟨x, c⟩ := a
    by_cases hx : x = p
    · have hxq : ¬ x = q := fun hc => h (hc.symm.trans hx)
      simp [eraseKey, hx, getFile, hxq, Ne.symm h, ih]
    · by_cases hxq : x = q
      · simp [eraseKey, hx, getFile, hxq, h]
      · simp [eraseKey, hx, getFile, hxq, ih]

/-- A write leaves every other path's content unchanged. -/
theorem getFile_setFile_ne (files : List (String × String))
    (p c q : String) (h : q ≠ p) :
    getFile (setFile files p c) q = getFile files q := by
  unfold setFile
  simp only [getFile]
  rw [if_neg (fun hc => h hc.symm)]
  exact getFile_eraseKey_ne files p q h

/-- Erasing a path twice equals erasing it once. -/
theorem eraseKey_idem (files : List (String × String)) (p : String) :
    eraseKey (eraseKey files p) p = eraseKey files p := by
  induction files with
  | nil => rfl
  | cons a t ih =>
    obtain ⟨x, c⟩ := a
    by_cases hx : x = p
    · simp [eraseKey, hx, ih]
    · simp [eraseKey, hx, ih]

/-- Writing the same content to the same path twice equals writing once. -/
theorem setFile_setFile (files : List (String × String)) (p c : String) :
    setFile (setFile files p c) p c = setFile files p c := by
  unfold setFile
  congr 1
  simp [eraseKey, eraseKey_idem]

/-- C8: when the filesystem operations succeed, `create_basic_main`
succeeds, the file at `<path>/src/main.cpp` holds exactly the fixed
template, every other path's content is untouched (exactly one file is
written), and a second call succeeds and leaves the same file contents
(idempotent). -/
theorem claim_c8 (w : World) (path : String) (s : St)
    (hmk : w.mkdirOk (path ++ "/src") = true)
    (hwr : w.writeOk (path ++ "/src" ++ "/main.cpp") = true) :
    (create_basic_main w path s).1 = .ok () ∧
    getFile (create_basic_main w path s).2.files (path ++ "/src" ++ "/main.cpp") =
      some main_cpp_content ∧
    (∀ q, q ≠ path ++ "/src" ++ "/main.cpp" →
      getFile (create_basic_main w path s).2.files q = getFile s.files q) ∧
    (create_basic_main w path (create_basic_main w path s).2).1 = .ok () ∧
    (create_basic_main w path (create_basic_main w path s).2).2.files =
      (create_basic_main w path s).2.files := by
  refine ⟨?_, ?_, ?_, ?_, ?_⟩
  · simp [create_basic_main, create_dir_all, hmk, writeFile, hwr]
  · simp [create_basic_main, create_dir_all, hmk, writeFile, hwr,
      getFile_setFile_self]
  · intro q hq
    simp [create_basic_main, create_dir_all, hmk, writeFile, hwr,
      getFile_setFile_ne _ _ _ _ hq]
  · simp [create_basic_main, create_dir_all, hmk, writeFile, hwr]
  · simp [create_basic_main, create_dir_all, hmk, writeFile, hwr,
      setFile_setFile]

/-- Witness for C8 at the healthy world on a fresh path. -/
theorem claim_c8_witness :
    (create_basic_main wOk "/proj" St.empty).1 = .ok () ∧
    getFile (create_basic_main wOk "/proj" St.empty).2.files
      ("/proj" ++ "/src" ++ "/main.cpp") = some main_cpp_content ∧
    (∀ q, q ≠ "/proj" ++ "/src" ++ "/main.cpp" →
      getFile (create_basic_main wOk "/proj" St.empty).2.files q =
        getFile St.empty.files q) ∧
    (create_basic_main wOk "/proj" (create_basic_main wOk "/proj" St.empty).2).1 = .ok () ∧
    (create_basic_main wOk "/proj" (create_basic_main wOk "/proj" St.empty).2).2.files =
      (create_basic_main wOk "/proj" St.empty).2.files :=
  claim_c8 wOk "/proj" St.empty rfl rfl
